import Mathlib

/-!
# Verification of the resilient RAG retrieval pipeline

Shallow embedding of `backend/rag-agent/mcp_server.py` and
`backend/core/prompt_guard.py`, together with spec-modelled components
(`core/circuit_breaker.py`, `core/cache.py`, `core/reranker.py`,
`core/hybrid_search.py` are declared in `core/__init__.py` but their source
is not in the tree; they are modelled from §4.1, §4.2, §4.4 and §4.5 of the
specification).

External effects (the prompt-guard scan, the embedding model, the sqlite-vec
index, the hybrid engine, the reranker's internal scorer) are supplied as
oracle fields of an environment record; mutable module state (response cache,
circuit breaker) is threaded explicitly.  Python floats are modelled as `ℚ`;
a raised Python exception is `Except.error`.
-/

/-- Python's `round` to three decimal places (banker's rounding: ties go to
the even neighbour), on the rational model of floats. -/
def roundEven (q : ℚ) : ℤ :=
  if (q - (⌊q⌋ : ℚ)) < 1/2 then ⌊q⌋
  else if (1/2 : ℚ) < q - (⌊q⌋ : ℚ) then ⌈q⌉
  else if ⌊q⌋ % 2 = 0 then ⌊q⌋ else ⌈q⌉

/-- `round(x, 3)` from Python, used at `mcp_server.py:148` and
`prompt_guard.py:111`. -/
def round3 (q : ℚ) : ℚ := (roundEven (q * 1000) : ℚ) / 1000

/-! ## Circuit breaker (modelled from the spec)

`core/circuit_breaker.py` is imported by `mcp_server.py` but its source is
not in the tree.  Modelled from spec §4.2 and §8: three states
CLOSED/OPEN/HALF_OPEN; CLOSED→OPEN once `consecutiveFailures ≥
failureThreshold`; OPEN→HALF_OPEN once `now - openedAt ≥ timeout`; a
HALF_OPEN trial success closes and resets counters, a failure reopens and
resets the cooldown clock; while OPEN and not cooled down the call is
rejected (a `CircuitBreakerError`) without invoking the wrapped operation,
incrementing `rejectedCalls`. -/

inductive CircuitState where
  | closed
  | isOpen
  | halfOpen
deriving DecidableEq, Repr

structure CircuitStats where
  total_calls : Nat := 0
  failed_calls : Nat := 0
  rejected_calls : Nat := 0
  consecutive_failures : Nat := 0
  opened_at : ℚ := 0
deriving DecidableEq, Repr

structure CircuitBreaker where
  failure_threshold : Nat
  timeout : ℚ
  state : CircuitState := CircuitState.closed
  stats : CircuitStats := {}
deriving DecidableEq, Repr

/-- Outcome of `CircuitBreaker.call`: the operation's value, the operation's
exception (re-raised to the caller), or rejection (`CircuitBreakerError`). -/
inductive CallOutcome (ε α : Type) where
  | ok (a : α)
  | failed (e : ε)
  | rejected
deriving DecidableEq, Repr

/-- Modelled from the spec: the breaker invokes the wrapped operation and
records success or failure (spec §4.2).  Success resets
`consecutiveFailures` and closes; failure increments the counters and opens
when the threshold is reached or when a HALF_OPEN trial fails, stamping
`openedAt := now`. -/
def CircuitBreaker.runOp (cb : CircuitBreaker) (now : ℚ)
    (op : Except ε α) : CallOutcome ε α × CircuitBreaker :=
  match op with
  | Except.ok a =>
      (CallOutcome.ok a,
       { cb with state := CircuitState.closed,
                 stats := { cb.stats with
                            total_calls := cb.stats.total_calls + 1,
                            consecutive_failures := 0 } })
  | Except.error e =>
      let cf := cb.stats.consecutive_failures + 1
      let opens : Bool :=
        cb.state = CircuitState.halfOpen || cb.failure_threshold ≤ cf
      (CallOutcome.failed e,
       { cb with
         state := if opens then CircuitState.isOpen else CircuitState.closed,
         stats := { cb.stats with
                    total_calls := cb.stats.total_calls + 1,
                    failed_calls := cb.stats.failed_calls + 1,
                    consecutive_failures := cf,
                    opened_at := if opens then now else cb.stats.opened_at } })

/-- Modelled from the spec: `call(operation)` (spec §4.2).  While OPEN and
not yet cooled down, rejects without invoking the operation and increments
`rejectedCalls`; once `now - openedAt ≥ timeout` a HALF_OPEN trial runs the
operation.  The third component reports whether the wrapped operation was
invoked. -/
def CircuitBreaker.call (cb : CircuitBreaker) (now : ℚ)
    (op : Except ε α) : CallOutcome ε α × CircuitBreaker × Bool :=
  match cb.state with
  | CircuitState.isOpen =>
      if cb.timeout ≤ now - cb.stats.opened_at then
        let r := CircuitBreaker.runOp { cb with state := CircuitState.halfOpen } now op
        (r.1, r.2, true)
      else
        (CallOutcome.rejected,
         { cb with stats := { cb.stats with
                              rejected_calls := cb.stats.rejected_calls + 1 } },
         false)
  | CircuitState.closed =>
      let r := cb.runOp now op
      (r.1, r.2, true)
  | CircuitState.halfOpen =>
      let r := cb.runOp now op
      (r.1, r.2, true)

/-- `mcp_server.py:47`: the database breaker is created with
`failure_threshold=3, timeout=30.0`. -/
def db_circuit : CircuitBreaker := { failure_threshold := 3, timeout := 30 }

/-! ## Data model of `search_documents` (`mcp_server.py:82-206`) -/

/-- Result of `prompt_guard.scan(query)` (the scanner itself is the external
regex filter, out of scope per spec §1; its verdict is an oracle input). -/
structure ScanResult where
  is_safe : Bool
  threat_level : String
deriving DecidableEq, Repr

/-- A row of the sqlite-vec join at `mcp_server.py:134-139`:
`(v.doc_id, v.distance, d.nome, d.conteudo, d.tipo)`. -/
structure Row where
  doc_id : Nat
  distance : ℚ
  nome : String
  conteudo : String
  tipo : String
deriving DecidableEq, Repr

/-- A pre-rerank result dict built at `mcp_server.py:143-149`. -/
structure DocResult where
  doc_id : Nat
  source : String
  type : String
  content : String
  similarity : ℚ
deriving DecidableEq, Repr

/-- `mcp_server.py:140-149`: distance-to-similarity conversion and content
truncation (`conteudo[:1000] if conteudo else ""`). -/
def rowToResult (r : Row) : DocResult :=
  { doc_id := r.doc_id,
    source := r.nome,
    type := r.tipo,
    content := if r.conteudo = "" then "" else r.conteudo.take 1000,
    similarity := round3 (max 0 (1 - r.distance)) }

/-- `mcp_server.py:131`: `fetch_k = top_k * 2 if use_reranking else top_k`. -/
def fetch_k (top_k : Nat) (use_reranking : Bool) : Nat :=
  if use_reranking then top_k * 2 else top_k

/-- The dict shapes `search_documents` can return: the prompt-guard block
marker (`mcp_server.py:109-112`), the breaker-open marker
(`mcp_server.py:160`), a plain result (`mcp_server.py:143-149` /
truncated at `mcp_server.py:183`), and a reranked result
(`mcp_server.py:170-181`). -/
inductive SearchEntry where
  | blocked (threat_level : String)
  | unavailable (retry_after : ℚ)
  | plain (r : DocResult)
  | reranked (doc_id : Nat) (source type content : String)
      (similarity rerank_score : ℚ) (rank : Nat)
deriving DecidableEq, Repr

/-- The `doc_id` carried by a document entry, if any. -/
def SearchEntry.docId : SearchEntry → Option Nat
  | SearchEntry.blocked _ => none
  | SearchEntry.unavailable _ => none
  | SearchEntry.plain r => some r.doc_id
  | SearchEntry.reranked d _ _ _ _ _ _ => some d

/-! ## Reranker (modelled from the spec)

`core/reranker.py` is imported by `mcp_server.py` but its source is not in
the tree.  Modelled from spec §4.5: `rerank(query, candidates, topK)`
computes an implementation-specific `rerankScore` per candidate, sorts
descending by it, truncates to `topK`, assigns dense 1-based `finalRank`,
and preserves `docId`, `content`, `metadata` and `originalScore` unchanged;
on internal failure of the reranker the documented policy is to fall back to
the pre-rerank ordering rather than fail the whole query.  The internal
scorer is an oracle: `none` models an internal reranker failure. -/

/-- A candidate tuple `(doc_id, content, similarity, {source, type})` built
at `mcp_server.py:164-167`. -/
structure Candidate where
  doc_id : Nat
  content : String
  original_score : ℚ
  source : String
  type : String
deriving DecidableEq, Repr

/-- A reranked result (spec §3, `RerankResult`). -/
structure RerankResult where
  doc_id : Nat
  content : String
  metadata_source : String
  metadata_type : String
  original_score : ℚ
  rerank_score : ℚ
  final_rank : Nat
deriving DecidableEq, Repr

def mkRerank (c : Candidate) (score : ℚ) (rank : Nat) : RerankResult :=
  { doc_id := c.doc_id,
    content := c.content,
    metadata_source := c.source,
    metadata_type := c.type,
    original_score := c.original_score,
    rerank_score := score,
    final_rank := rank }

/-- Dense 1-based `finalRank` assignment over an already-ordered scored
candidate list (spec §4.5). -/
def assignRanks : Nat → List (Candidate × ℚ) → List RerankResult
  | _, [] => []
  | i, (c, s) :: rest => mkRerank c s i :: assignRanks (i + 1) rest

/-- Modelled from the spec: `LightweightReranker.rerank` (spec §4.5).  With
a working internal scorer `some f`, scores every candidate, sorts descending
by `rerankScore`, truncates to `topK` and assigns dense ranks; on internal
failure (`none`) falls back to the pre-rerank ordering (the candidates in
input order, truncated to `topK`), keeping the original score as the
reported score (the spec does not pin the fallback's `rerankScore`). -/
def rerank (scorer : Option (String → Candidate → ℚ)) (query : String)
    (cands : List Candidate) (topK : Nat) : List RerankResult :=
  match scorer with
  | none =>
      assignRanks 1 ((cands.map (fun c => (c, c.original_score))).take topK)
  | some f =>
      let scored := cands.map (fun c => (c, f query c))
      let sorted := scored.mergeSort (fun a b => decide (b.2 ≤ a.2))
      assignRanks 1 (sorted.take topK)

/-! ## Response cache (modelled from the spec)

`core/cache.py` is imported by `mcp_server.py` but its source is not in the
tree.  Modelled from spec §4.1 as an associative store; the key is exactly
the pair of arguments the call sites pass (`response_cache.get(query,
top_k)` at `mcp_server.py:116`, `response_cache.set(query, top_k, results)`
at `mcp_server.py:198`).  Capacity/TTL-based eviction is omitted: no claim
below depends on it, and eviction can only remove entries, never return a
value stored under a different key. -/

abbrev ResponseCache := List ((String × Nat) × List SearchEntry)

def cacheGet (c : ResponseCache) (q : String) (k : Nat) :
    Option (List SearchEntry) :=
  match c.find? (fun e => e.1 = (q, k)) with
  | some e => some e.2
  | none => none

def cacheSet (c : ResponseCache) (q : String) (k : Nat)
    (v : List SearchEntry) : ResponseCache :=
  ((q, k), v) :: c.filter (fun e => ¬ e.1 = (q, k))

/-! ## The `search_documents` tool (`mcp_server.py:82-206`) -/

/-- Observable effect counters, used to state frame conditions ("no cache
lookup / no cache store / no embedding computation"). -/
structure Effects where
  cache_lookups : Nat := 0
  cache_stores : Nat := 0
  embed_calls : Nat := 0
deriving DecidableEq, Repr

/-- The module-level mutable state `search_documents` touches:
`response_cache` (`mcp_server.py:44`) and `db_circuit` (`mcp_server.py:47`),
plus the effect counters. -/
structure ServerState where
  response_cache : ResponseCache := []
  circuit : CircuitBreaker := db_circuit
  effects : Effects := {}
deriving DecidableEq, Repr

/-- Oracle environment for one `search_documents` call: the prompt-guard
verdict, the vector index's rows as a function of the requested `k`, an
optional exception raised inside `do_search` (embedding model, connection or
query failure), the reranker's internal scorer (`none` = internal reranker
failure), and the current time seen by the breaker. -/
structure SearchEnv where
  scan : ScanResult
  vecRows : Nat → List Row
  search_exc : Option String
  scorer : Option (String → Candidate → ℚ)
  now : ℚ

/-- The `do_search` closure (`mcp_server.py:122-152`): generate the query
embedding, run the sqlite-vec query at `fetch_k` and convert each row; any
internal exception is modelled by `search_exc`. -/
def do_search (env : SearchEnv) (top_k : Nat) (use_reranking : Bool) :
    Except String (List DocResult) :=
  match env.search_exc with
  | some e => Except.error e
  | none =>
      Except.ok ((env.vecRows (fetch_k top_k use_reranking)).map rowToResult)

/-- `mcp_server.py:163-183`: apply re-ranking when enabled and results are
non-empty, else truncate to `top_k`. -/
def applyReranking (query : String) (top_k : Nat) (use_reranking : Bool)
    (scorer : Option (String → Candidate → ℚ)) (results : List DocResult) :
    List SearchEntry :=
  if use_reranking ∧ 0 < results.length then
    let cands := results.map (fun r =>
      Candidate.mk r.doc_id r.content r.similarity r.source r.type)
    (rerank scorer query cands top_k).map (fun r =>
      SearchEntry.reranked r.doc_id r.metadata_source r.metadata_type
        r.content r.original_score r.rerank_score r.final_rank)
  else
    (results.take top_k).map SearchEntry.plain

/-- Shallow embedding of `search_documents` (`mcp_server.py:82-206`).
Control flow follows the source: prompt-guard scan (blocked queries return a
single error-marker entry), response-cache lookup, circuit-breaker-guarded
`do_search` (a `CircuitBreakerError` becomes the `unavailable` marker with
`retry_after = 30`), re-ranking or truncation, cache store.  The outer
`except` (`mcp_server.py:202-206`) records metrics, logs, and re-raises, so
an operation exception surfaces as `Except.error`. -/
def search_documents (query : String) (top_k : Nat) (use_reranking : Bool)
    (env : SearchEnv) (st : ServerState) :
    Except String (List SearchEntry) × ServerState :=
  if env.scan.is_safe = false then
    (Except.ok [SearchEntry.blocked env.scan.threat_level], st)
  else
    let st1 : ServerState :=
      { st with effects := { st.effects with
                             cache_lookups := st.effects.cache_lookups + 1 } }
    match cacheGet st.response_cache query top_k with
    | some cached => (Except.ok cached, st1)
    | none =>
        let op := do_search env top_k use_reranking
        let called := st1.circuit.call env.now op
        let st2 : ServerState :=
          { st1 with
            circuit := called.2.1,
            effects :=
              if called.2.2 then
                { st1.effects with embed_calls := st1.effects.embed_calls + 1 }
              else st1.effects }
        match called.1 with
        | CallOutcome.rejected =>
            (Except.ok [SearchEntry.unavailable 30], st2)
        | CallOutcome.failed e => (Except.error e, st2)
        | CallOutcome.ok results =>
            let final := applyReranking query top_k use_reranking env.scorer results
            let st3 : ServerState :=
              { st2 with
                response_cache := cacheSet st2.response_cache query top_k final,
                effects := { st2.effects with
                             cache_stores := st2.effects.cache_stores + 1 } }
            (Except.ok final, st3)


/-! ## The `search_hybrid` tool (`mcp_server.py:209-269`)

`core/hybrid_search.py` is imported inside the tool but its source is not in
the tree; the engine's ranking is an oracle function of the configured
weights and `top_k` (its internals are spec §4.4 and are not needed by the
claims, which concern the configuration and the error path). -/

/-- A `HybridSearch` result object (spec §3, `SearchResult`; fields read at
`mcp_server.py:244-256`). -/
structure HResult where
  doc_id : Nat
  nome : String
  tipo : String
  content : String
  vector_score : ℚ
  bm25_score : ℚ
  hybrid_score : ℚ
  rank : Nat
deriving DecidableEq, Repr

/-- The dict shapes `search_hybrid` can return: the prompt-guard block
marker (`mcp_server.py:232`, no threat level there) and a hybrid result
(`mcp_server.py:244-256`). -/
inductive HybridEntry where
  | blocked
  | doc (doc_id : Nat) (source type content : String)
      (vector_score bm25_score hybrid_score : ℚ) (rank : Nat)
deriving DecidableEq, Repr

def hResultToEntry (r : HResult) : HybridEntry :=
  HybridEntry.doc r.doc_id r.nome r.tipo r.content
    r.vector_score r.bm25_score r.hybrid_score r.rank

/-- `mcp_server.py:235-239`: the `HybridSearch` engine is constructed with
`vector_weight=vector_weight, bm25_weight=1 - vector_weight`. -/
def hybridWeights (vector_weight : ℚ) : ℚ × ℚ :=
  (vector_weight, 1 - vector_weight)

/-- Oracle environment for one `search_hybrid` call: the prompt-guard
verdict, an optional exception raised by engine construction or search, and
the engine's ranking as a function of `(vector_weight, bm25_weight, top_k)`. -/
structure HybridEnv where
  scan : ScanResult
  hybrid_exc : Option String
  engine : String → ℚ → ℚ → Nat → List HResult

/-- Shallow embedding of `search_hybrid` (`mcp_server.py:209-269`): blocked
queries return a single error-marker entry; otherwise the engine is
configured with `hybridWeights vector_weight` and its results are converted;
the outer `except` (`mcp_server.py:265-269`) records metrics, logs, and
re-raises, so an engine exception surfaces as `Except.error`. -/
def search_hybrid (query : String) (top_k : Nat) (vector_weight : ℚ)
    (env : HybridEnv) : Except String (List HybridEntry) :=
  if env.scan.is_safe = false then
    Except.ok [HybridEntry.blocked]
  else
    match env.hybrid_exc with
    | some e => Except.error e
    | none =>
        let w := hybridWeights vector_weight
        Except.ok ((env.engine query w.1 w.2 top_k).map hResultToEntry)

/-! ## Prompt guard (`backend/core/prompt_guard.py`)

`PromptGuard.validate` is pure Python over the `re` module; the regex
engine (`re.search` with `re.IGNORECASE`) is an external library and is
abstracted as an oracle `reSearch : pattern → text → Bool`.  Everything
else — the pattern table, the fold computing violations and the maximal
risk, the thresholds and the verdict — is embedded from the source. -/

/-- `prompt_guard.py:10-16`. -/
structure ValidationResult where
  is_safe : Bool
  risk_score : ℚ
  violations : List String
  message : String := ""
deriving DecidableEq, Repr

/-- `prompt_guard.py:29-63`: `INJECTION_PATTERNS`, the 22 suspicious
regexes with risk scores and categories, in source order. -/
def INJECTION_PATTERNS : List (String × ℚ × String) :=
  [("ignore\\s+(previous|all|above|your)\\s+instructions?", 95/100, "instruction_override"),
   ("disregard\\s+(your|the|all)\\s+(instructions?|rules?)", 95/100, "instruction_override"),
   ("forget\\s+(everything|all|your\\s+rules)", 90/100, "instruction_override"),
   ("new\\s+instructions?\\s*:", 85/100, "instruction_override"),
   ("you\\s+are\\s+now\\s+", 80/100, "role_hijack"),
   ("pretend\\s+(you're|to\\s+be|you\\s+are)", 75/100, "role_hijack"),
   ("act\\s+as\\s+(if|a|an)", 60/100, "role_hijack"),
   ("from\\s+now\\s+on\\s+you", 70/100, "role_hijack"),
   ("(show|reveal|print|display)\\s+(your|the)\\s+(system|prompt|instructions)", 90/100, "exfiltration"),
   ("what\\s+(are|is)\\s+your\\s+(instructions?|rules?|prompt)", 50/100, "exfiltration"),
   ("repeat\\s+(your|the)\\s+(system|initial)\\s+(prompt|message)", 85/100, "exfiltration"),
   ("```system", 95/100, "delimiter_injection"),
   ("\\[\\[system\\]\\]", 95/100, "delimiter_injection"),
   ("<\\|im_start\\|>", 98/100, "delimiter_injection"),
   ("<\\|endoftext\\|>", 98/100, "delimiter_injection"),
   ("###\\s*system", 90/100, "delimiter_injection"),
   ("dan\\s+mode", 90/100, "jailbreak"),
   ("developer\\s+mode", 85/100, "jailbreak"),
   ("evil\\s+mode", 90/100, "jailbreak"),
   ("unrestricted\\s+mode", 85/100, "jailbreak"),
   ("(end|close)\\s+(of\\s+)?(context|conversation|chat)", 80/100, "context_manipulation"),
   ("---+\\s*new\\s+(prompt|conversation)", 85/100, "context_manipulation")]

/-- `prompt_guard.py:19-75`: a guard instance carries its two thresholds
(class defaults `0.70` and `0.40`, overridable in `__init__`). -/
structure PromptGuard where
  block_threshold : ℚ := 70/100
  warn_threshold : ℚ := 40/100
deriving DecidableEq, Repr

/-- `prompt_guard.py:138`: the module-level instance `PromptGuard()`. -/
def prompt_guard_default : PromptGuard := {}

/-- One iteration of the loop at `prompt_guard.py:94-97`: on a regex match,
append `f"{category}:{pattern[:30]}"` and take the max risk. -/
def guardStep (reSearch : String → String → Bool) (pl : String)
    (acc : List String × ℚ) (entry : String × ℚ × String) :
    List String × ℚ :=
  if reSearch entry.1 pl then
    (acc.1 ++ [entry.2.2 ++ ":" ++ entry.1.take 30], max acc.2 entry.2.1)
  else acc

/-- The maximum risk score over all matched injection patterns (0 when no
pattern matches), as accumulated by the loop at `prompt_guard.py:92-97`. -/
def maxRiskOf (reSearch : String → String → Bool) (pl : String) : ℚ :=
  (INJECTION_PATTERNS.filter (fun e => reSearch e.1 pl)).foldl
    (fun m e => max m e.2.1) 0

/-- Shallow embedding of `PromptGuard.validate` (`prompt_guard.py:77-114`).
`prompt : Option String` models the Python argument, which may be `None`;
the `if not prompt` test is true for `None` and for the empty string.  The
function is pure: it is total (always returns a `ValidationResult`),
deterministic, and cannot mutate guard state. -/
def PromptGuard.validate (g : PromptGuard)
    (reSearch : String → String → Bool) (prompt : Option String) :
    ValidationResult :=
  if prompt = none ∨ prompt = some "" then
    { is_safe := true, risk_score := 0, violations := [], message := "" }
  else
    let p := prompt.getD ""
    let pl := p.toLower
    let acc := INJECTION_PATTERNS.foldl (guardStep reSearch pl) ([], 0)
    let max_risk := acc.2
    let is_safe := decide (max_risk < g.block_threshold)
    let message :=
      if g.block_threshold ≤ max_risk then
        "Mensagem bloqueada por politica de seguranca"
      else if g.warn_threshold ≤ max_risk then
        "Mensagem com risco moderado detectado"
      else ""
    { is_safe := is_safe,
      risk_score := round3 max_risk,
      violations := acc.1,
      message := message }

/-- Breaker state after one failed guarded call at time `t` (used to state
the C5 scenario). -/
def failCall (cb : CircuitBreaker) (t : ℚ) (e : String) : CircuitBreaker :=
  (cb.call t (Except.error e : Except String (List DocResult))).2.1

/-- A concrete call for C2: safe query, empty cache, healthy (CLOSED)
breaker, but the guarded search operation raises `ConnectionError`. -/
def c2Env : SearchEnv :=
  { scan := ScanResult.mk true "",
    vecRows := fun _ => [],
    search_exc := some "ConnectionError",
    scorer := none,
    now := 0 }

/-- A single indexed document at distance 0, used for C3. -/
def c3Row : Row :=
  { doc_id := 1, distance := 0, nome := "doc", conteudo := "", tipo := "txt" }

/-- For C3: safe query, healthy store returning `c3Row`, and a working
reranker whose internal scorer gives `9/10`. -/
def c3Env : SearchEnv :=
  { scan := ScanResult.mk true "",
    vecRows := fun _ => [c3Row],
    search_exc := none,
    scorer := some (fun _ _ => 9/10),
    now := 0 }

/-! ## Claim theorems -/

theorem roundEven_nonneg (q : ℚ) (h : 0 ≤ q) : 0 ≤ roundEven q := by
  unfold roundEven
  have hf : (0 : ℤ) ≤ ⌊q⌋ := Int.floor_nonneg.mpr h
  have hc : (0 : ℤ) ≤ ⌈q⌉ := le_trans hf (Int.floor_le_ceil q)
  split
  · exact hf
  · split
    · exact hc
    · split
      · exact hf
      · exact hc

theorem round3_nonneg (q : ℚ) (h : 0 ≤ q) : 0 ≤ round3 q := by
  unfold round3
  have h1 : (0 : ℚ) ≤ (roundEven (q * 1000) : ℚ) := by
    exact_mod_cast roundEven_nonneg (q * 1000) (by positivity)
  positivity


/-- **C6**: with `use_reranking` the candidate set requested from the vector
index is of size `2 × top_k` (`fetch_k = top_k * 2`, `mcp_server.py:131`),
satisfying the spec's `≥ 2×top_k` over-fetch; without it exactly `top_k`
candidates are requested, and `do_search` queries the index at exactly
`fetch_k top_k use_reranking`. -/
theorem C6_overfetch_size :
    (∀ k : Nat, fetch_k k true = 2 * k) ∧
    (∀ k : Nat, fetch_k k false = k) ∧
    (∀ (rows : Nat → List Row) (k : Nat) (r : Bool),
       do_search { scan := ScanResult.mk true "", vecRows := rows,
                   search_exc := none, scorer := none, now := 0 } k r
         = Except.ok ((rows (fetch_k k r)).map rowToResult)) := by
  refine ⟨fun k => ?_, fun k => rfl, fun rows k r => rfl⟩
  simp [fetch_k, Nat.mul_comm]

/-- **C7**: `search_hybrid` configures the hybrid engine with lexical (BM25)
weight exactly `1 - vector_weight` (`mcp_server.py:238`), so the two fusion
weights always sum to 1; on a safe, non-failing call the engine is invoked
with exactly these weights. -/
theorem C7_weights_sum_one :
    ∀ w : ℚ,
      (hybridWeights w).2 = 1 - w ∧
      (hybridWeights w).1 + (hybridWeights w).2 = 1 ∧
      (∀ (engine : String → ℚ → ℚ → Nat → List HResult) (q : String) (k : Nat),
        search_hybrid q k w
            { scan := ScanResult.mk true "", hybrid_exc := none, engine := engine }
          = Except.ok ((engine q w (1 - w) k).map hResultToEntry)) := by
  intro w
  refine ⟨rfl, ?_, fun engine q k => rfl⟩
  show w + (1 - w) = 1
  ring

/-- **C8**: every row of the vector search is reported with
`similarity = round(max(0, 1 - distance), 3)` (`mcp_server.py:141-148`), and
this similarity is nonnegative for every distance the index returns. -/
theorem C8_similarity_nonneg :
    ∀ r : Row,
      (rowToResult r).similarity = round3 (max 0 (1 - r.distance)) ∧
      0 ≤ (rowToResult r).similarity := by
  intro r
  exact ⟨rfl, round3_nonneg _ (le_max_left 0 _)⟩

/-- **C9**: a query whose prompt-guard scan reports unsafe returns the
single-element blocked marker carrying the threat level
(`mcp_server.py:101-112`) and leaves the entire server state untouched: no
response-cache lookup or store, no embedding computation, no
circuit-breaker-guarded call — cache contents, breaker state and all effect
counters are exactly those of the pre-call state. -/
theorem C9_blocked_no_effects (q : String) (k : Nat) (r : Bool)
    (env : SearchEnv) (st : ServerState)
    (h : env.scan.is_safe = false) :
    search_documents q k r env st
      = (Except.ok [SearchEntry.blocked env.scan.threat_level], st) := by
  simp [search_documents, h]

theorem C9_blocked_no_effects_witness :
    search_documents "q" 5 true
        { scan := ScanResult.mk false "high", vecRows := fun _ => [],
          search_exc := none, scorer := none, now := 0 } {}
      = (Except.ok [SearchEntry.blocked "high"], {}) :=
  C9_blocked_no_effects "q" 5 true
    { scan := ScanResult.mk false "high", vecRows := fun _ => [],
      search_exc := none, scorer := none, now := 0 } {} rfl

/-- **C4**: when the breaker raises its breaker-open condition (OPEN and not
yet cooled down), `search_documents` does not execute the guarded search
operation (no embedding computation, no call counted by the breaker) and
returns the "temporarily unavailable" marker whose `retry_after` equals the
breaker's cooldown (`mcp_server.py:155-160` with the breaker of
`mcp_server.py:47`, whose `timeout` is 30), incrementing `rejectedCalls`
instead of retrying or raising. -/
theorem C4_breaker_open_unavailable (q : String) (k : Nat) (r : Bool)
    (env : SearchEnv) (st : ServerState)
    (hsafe : env.scan.is_safe = true)
    (hmiss : cacheGet st.response_cache q k = none)
    (hopen : st.circuit.state = CircuitState.isOpen)
    (hcool : env.now - st.circuit.stats.opened_at < st.circuit.timeout)
    (htmo : st.circuit.timeout = 30) :
    (search_documents q k r env st).1
      = Except.ok [SearchEntry.unavailable st.circuit.timeout] ∧
    (search_documents q k r env st).2.effects.embed_calls
      = st.effects.embed_calls ∧
    (search_documents q k r env st).2.circuit.stats.total_calls
      = st.circuit.stats.total_calls ∧
    (search_documents q k r env st).2.circuit.stats.rejected_calls
      = st.circuit.stats.rejected_calls + 1 := by
  have hcall : st.circuit.call env.now (do_search env k r)
      = (CallOutcome.rejected,
         { st.circuit with
           stats := { st.circuit.stats with
                      rejected_calls := st.circuit.stats.rejected_calls + 1 } },
         false) := by
    unfold CircuitBreaker.call
    simp [hopen, not_le.mpr hcool]
  simp [search_documents, hsafe, hmiss, hcall, htmo]

theorem C4_breaker_open_unavailable_witness :
    (search_documents "q" 3 true
        { scan := ScanResult.mk true "", vecRows := fun _ => [],
          search_exc := none, scorer := none, now := 5 }
        { response_cache := [],
          circuit := { failure_threshold := 3, timeout := 30,
                       state := CircuitState.isOpen,
                       stats := { total_calls := 3, failed_calls := 3,
                                  rejected_calls := 0,
                                  consecutive_failures := 3,
                                  opened_at := 0 } },
          effects := {} }).1
      = Except.ok [SearchEntry.unavailable 30] := by
  have h := C4_breaker_open_unavailable "q" 3 true
    { scan := ScanResult.mk true "", vecRows := fun _ => [],
      search_exc := none, scorer := none, now := 5 }
    { response_cache := [],
      circuit := { failure_threshold := 3, timeout := 30,
                   state := CircuitState.isOpen,
                   stats := { total_calls := 3, failed_calls := 3,
                              rejected_calls := 0,
                              consecutive_failures := 3,
                              opened_at := 0 } },
      effects := {} }
    rfl rfl rfl (by norm_num) rfl
  exact h.1

/-- **C5**: for the breaker constructed with `failure_threshold=3`
(`mcp_server.py:47`): from CLOSED with zero consecutive failures, three
consecutive failed calls drive the state CLOSED→CLOSED→CLOSED→OPEN; a
fourth call within the cooldown is rejected without invoking the wrapped
operation (no call is counted), incrementing `rejectedCalls`; and any call
that invokes the operation and succeeds resets `consecutiveFailures` to 0. -/
theorem C5_threshold_transitions (t1 t2 t3 t4 : ℚ) (e : String)
    (op : Except String (List DocResult))
    (h : t4 - t3 < 30) :
    (failCall db_circuit t1 e).state = CircuitState.closed ∧
    (failCall db_circuit t1 e).stats.consecutive_failures = 1 ∧
    (failCall (failCall db_circuit t1 e) t2 e).state = CircuitState.closed ∧
    (failCall (failCall db_circuit t1 e) t2 e).stats.consecutive_failures = 2 ∧
    (failCall (failCall (failCall db_circuit t1 e) t2 e) t3 e).state
      = CircuitState.isOpen ∧
    (failCall (failCall (failCall db_circuit t1 e) t2 e) t3 e).stats.consecutive_failures
      = 3 ∧
    ((failCall (failCall (failCall db_circuit t1 e) t2 e) t3 e).call t4 op).1
      = CallOutcome.rejected ∧
    ((failCall (failCall (failCall db_circuit t1 e) t2 e) t3 e).call t4 op).2.2
      = false ∧
    ((failCall (failCall (failCall db_circuit t1 e) t2 e) t3 e).call t4 op).2.1.stats.rejected_calls
      = (failCall (failCall (failCall db_circuit t1 e) t2 e) t3 e).stats.rejected_calls + 1 ∧
    ((failCall (failCall (failCall db_circuit t1 e) t2 e) t3 e).call t4 op).2.1.stats.total_calls
      = (failCall (failCall (failCall db_circuit t1 e) t2 e) t3 e).stats.total_calls ∧
    (∀ (cb : CircuitBreaker) (now : ℚ) (a : List DocResult),
       (cb.call now (Except.ok a : Except String (List DocResult))).2.2 = true →
       (cb.call now
           (Except.ok a : Except String (List DocResult))).2.1.stats.consecutive_failures
         = 0) := by
  have hc3 : failCall (failCall (failCall db_circuit t1 e) t2 e) t3 e
      = { failure_threshold := 3, timeout := 30, state := CircuitState.isOpen,
          stats := { total_calls := 3, failed_calls := 3, rejected_calls := 0,
                     consecutive_failures := 3, opened_at := t3 } } := rfl
  have hreject : (failCall (failCall (failCall db_circuit t1 e) t2 e) t3 e).call t4 op
      = (CallOutcome.rejected,
         { failure_threshold := 3, timeout := 30, state := CircuitState.isOpen,
           stats := { total_calls := 3, failed_calls := 3, rejected_calls := 1,
                      consecutive_failures := 3, opened_at := t3 } },
         false) := by
    rw [hc3]
    unfold CircuitBreaker.call
    simp [not_le.mpr h]
  have hreset : ∀ (cb : CircuitBreaker) (now : ℚ) (a : List DocResult),
      (cb.call now (Except.ok a : Except String (List DocResult))).2.2 = true →
      (cb.call now
          (Except.ok a : Except String (List DocResult))).2.1.stats.consecutive_failures
        = 0 := by
    intro cb now a hinv
    unfold CircuitBreaker.call at hinv ⊢
    cases hstate : cb.state with
    | isOpen =>
        by_cases hc : cb.timeout ≤ now - cb.stats.opened_at
        · simp [hc, CircuitBreaker.runOp]
        · simp [hstate, hc] at hinv
    | closed => simp [CircuitBreaker.runOp]
    | halfOpen => simp [CircuitBreaker.runOp]
  refine ⟨rfl, rfl, rfl, rfl, rfl, rfl, ?_, ?_, ?_, ?_, hreset⟩
  · rw [hreject]
  · rw [hreject]
  · rw [hreject, hc3]
  · rw [hreject, hc3]

theorem C5_threshold_transitions_witness :
    ((0 : ℚ) - 0 < 30) ∧
    ((failCall (failCall (failCall db_circuit 0 "E") 0 "E") 0 "E").call 0
        (Except.ok [] : Except String (List DocResult))).1
      = CallOutcome.rejected :=
  ⟨by norm_num,
   (C5_threshold_transitions 0 0 0 0 "E" (Except.ok []) (by norm_num)).2.2.2.2.2.2.1⟩

/-- The loop of `prompt_guard.py:94-97` accumulates, in its risk component,
exactly the maximum risk of the matched patterns. -/
theorem guardFold_snd (reSearch : String → String → Bool) (pl : String) :
    ∀ (l : List (String × ℚ × String)) (v : List String) (m : ℚ),
      (l.foldl (guardStep reSearch pl) (v, m)).2
        = (l.filter (fun e => reSearch e.1 pl)).foldl (fun acc e => max acc e.2.1) m := by
  intro l
  induction l with
  | nil => intro v m; rfl
  | cons x xs ih =>
      intro v m
      by_cases hx : reSearch x.1 pl
      · simp [List.foldl_cons, guardStep, hx, List.filter_cons, ih]
      · simp [List.foldl_cons, guardStep, hx, List.filter_cons, ih]

/-- **C10**: `PromptGuard.validate` (`prompt_guard.py:77-114`) is a pure
total function of its inputs (hence deterministic, never raising and never
mutating guard state); an empty or `None` prompt yields `is_safe=True`,
`risk_score=0.0` and no violations; for any other prompt, under any
behaviour of the external regex engine, `is_safe` holds exactly when the
maximum risk score over the matched injection patterns is strictly below
the block threshold, which defaults to 0.70. -/
theorem C10_validate_verdict (g : PromptGuard)
    (reSearch : String → String → Bool) :
    g.validate reSearch none
      = { is_safe := true, risk_score := 0, violations := [], message := "" } ∧
    g.validate reSearch (some "")
      = { is_safe := true, risk_score := 0, violations := [], message := "" } ∧
    prompt_guard_default.block_threshold = 70/100 ∧
    (∀ p : String, ¬ p = "" →
      ((g.validate reSearch (some p)).is_safe = true ↔
        maxRiskOf reSearch p.toLower < g.block_threshold)) := by
  refine ⟨rfl, rfl, rfl, ?_⟩
  intro p hp
  have hnone : ¬ ((some p : Option String) = none ∨ (some p : Option String) = some "") := by
    simp [hp]
  unfold PromptGuard.validate
  rw [if_neg hnone]
  simp only [maxRiskOf]
  rw [← guardFold_snd reSearch p.toLower INJECTION_PATTERNS [] 0]
  simp [Option.getD]

theorem C10_validate_verdict_witness :
    ¬ ("hello" : String) = "" ∧
    ((prompt_guard_default.validate (fun _ _ => false) (some "hello")).is_safe = true ↔
      maxRiskOf (fun _ _ => false) ("hello" : String).toLower
        < prompt_guard_default.block_threshold) :=
  ⟨by decide,
   (C10_validate_verdict prompt_guard_default (fun _ _ => false)).2.2.2 "hello" (by decide)⟩

theorem assignRanks_docIds :
    ∀ (l : List (Candidate × ℚ)) (i : Nat),
      (assignRanks i l).map RerankResult.doc_id = l.map (fun p => p.1.doc_id) := by
  intro l
  induction l with
  | nil => intro i; rfl
  | cons x xs ih =>
      intro i
      cases x with
      | mk c s => simp [assignRanks, mkRerank, ih]

/-- **C1**: if the reranker fails internally (scorer oracle `none`) while
`search_documents` handles a safe, cache-missing query with `use_reranking`
enabled and a healthy store, the call does not fail: it returns `Except.ok`
with a result list whose documents are the retrieved candidates in their
pre-rerank order, truncated to `top_k` (spec §4.5 fallback policy, applied
inside the spec-modelled reranker; the caller at `mcp_server.py:162-181`
performs no local recovery). -/
theorem C1_rerank_failure_fallback (q : String) (k : Nat) (env : SearchEnv)
    (st : ServerState)
    (hsafe : env.scan.is_safe = true)
    (hmiss : cacheGet st.response_cache q k = none)
    (hexc : env.search_exc = none)
    (hclosed : st.circuit.state = CircuitState.closed)
    (hfail : env.scorer = none) :
    ∃ l, (search_documents q k true env st).1 = Except.ok l ∧
      l.map SearchEntry.docId
        = (((env.vecRows (fetch_k k true)).map Row.doc_id).take k).map some := by
  have hop : do_search env k true
      = Except.ok ((env.vecRows (fetch_k k true)).map rowToResult) := by
    unfold do_search
    rw [hexc]
  have hcall : st.circuit.call env.now (do_search env k true)
      = (CallOutcome.ok ((env.vecRows (fetch_k k true)).map rowToResult),
         { st.circuit with
           state := CircuitState.closed,
           stats := { st.circuit.stats with
                      total_calls := st.circuit.stats.total_calls + 1,
                      consecutive_failures := 0 } },
         true) := by
    rw [hop]
    unfold CircuitBreaker.call
    simp [hclosed, CircuitBreaker.runOp]
  refine ⟨applyReranking q k true env.scorer
            ((env.vecRows (fetch_k k true)).map rowToResult), ?_, ?_⟩
  · simp [search_documents, hsafe, hmiss, hcall]
  · rw [hfail]
    unfold applyReranking
    by_cases hlen : 0 < ((env.vecRows (fetch_k k true)).map rowToResult).length
    · rw [if_pos (by exact ⟨rfl, hlen⟩)]
      simp only [rerank, List.map_map]
      have h1 : ∀ rr : List RerankResult,
          rr.map ((fun e => SearchEntry.docId e) ∘ (fun r =>
            SearchEntry.reranked r.doc_id r.metadata_source r.metadata_type
              r.content r.original_score r.rerank_score r.final_rank))
            = rr.map (fun r => some r.doc_id) := by
        intro rr
        apply List.map_congr_left
        intro a _
        rfl
      rw [h1]
      have h2 : ∀ rr : List RerankResult,
          rr.map (fun r => some r.doc_id)
            = (rr.map RerankResult.doc_id).map some := by
        intro rr
        rw [List.map_map]
        rfl
      rw [h2, assignRanks_docIds]
      simp [List.map_take, List.map_map, rowToResult]
      rfl
    · have hnil : (env.vecRows (fetch_k k true)).map rowToResult = [] := by
        cases hh : (env.vecRows (fetch_k k true)).map rowToResult with
        | nil => rfl
        | cons a l => rw [hh] at hlen; simp at hlen
      rw [if_neg (by simp [hnil])]
      have hnil2 : env.vecRows (fetch_k k true) = [] :=
        List.map_eq_nil_iff.mp hnil
      simp [hnil, hnil2]

theorem C1_rerank_failure_fallback_witness :
    ∃ l,
      (search_documents "q" 1 true
          { scan := ScanResult.mk true "", vecRows := fun _ =>
              [Row.mk 7 (1/4) "a.md" "alpha" "md", Row.mk 9 (1/2) "b.md" "beta" "md"],
            search_exc := none, scorer := none, now := 0 } {}).1
        = Except.ok l ∧
      l.map SearchEntry.docId
        = ((((fun _ : Nat =>
              [Row.mk 7 (1/4) "a.md" "alpha" "md", Row.mk 9 (1/2) "b.md" "beta" "md"])
                (fetch_k 1 true)).map Row.doc_id).take 1).map some :=
  C1_rerank_failure_fallback "q" 1
    { scan := ScanResult.mk true "", vecRows := fun _ =>
        [Row.mk 7 (1/4) "a.md" "alpha" "md", Row.mk 9 (1/2) "b.md" "beta" "md"],
      search_exc := none, scorer := none, now := 0 } {}
    rfl rfl rfl rfl rfl

/-- **C2, counterexample**: the claim "neither `search_documents` nor
`search_hybrid` ever propagates a raw internal exception" is false.  On a
safe query with an empty cache and a CLOSED breaker whose guarded operation
raises `ConnectionError`, the outer handler at `mcp_server.py:202-206`
logs and then `raise`s: the raw exception reaches the caller. -/
theorem C2_counterexample :
    (search_documents "q" 1 false c2Env {}).1 = Except.error "ConnectionError" := rfl

/-- The breaker never reports an operation failure that the operation did
not raise. -/
theorem call_failed_imp (cb : CircuitBreaker) (now : ℚ)
    (op : Except String (List DocResult)) (e : String)
    (h : (cb.call now op).1 = CallOutcome.failed e) :
    op = Except.error e := by
  unfold CircuitBreaker.call at h
  cases hstate : cb.state with
  | isOpen =>
      rw [hstate] at h
      by_cases hc : cb.timeout ≤ now - cb.stats.opened_at
      · rw [if_pos hc] at h
        cases op with
        | ok a => simp [CircuitBreaker.runOp] at h
        | error e0 =>
            simp [CircuitBreaker.runOp] at h
            rw [h]
      · rw [if_neg hc] at h
        simp at h
  | closed =>
      rw [hstate] at h
      cases op with
      | ok a => simp [CircuitBreaker.runOp] at h
      | error e0 =>
          simp [CircuitBreaker.runOp] at h
          rw [h]
  | halfOpen =>
      rw [hstate] at h
      cases op with
      | ok a => simp [CircuitBreaker.runOp] at h
      | error e0 =>
          simp [CircuitBreaker.runOp] at h
          rw [h]

/-- **C2, amended**: prompt-blocked queries, cache hits, breaker rejections
and successful searches are all translated to bounded `Except.ok` outcomes
(blocked / cached list / unavailable / result list); but an exception raised
by the guarded search operation itself (and, for `search_hybrid`, by the
hybrid engine) is re-raised to the caller by the outer handlers at
`mcp_server.py:202-206` and `mcp_server.py:265-269`: the only raw
exceptions either tool can propagate are exactly those of its underlying
search operation. -/
theorem C2_amended_raise_source :
    (∀ (q : String) (k : Nat) (r : Bool) (env : SearchEnv) (st : ServerState)
       (e : String),
       (search_documents q k r env st).1 = Except.error e →
       env.search_exc = some e) ∧
    (∀ (q : String) (k : Nat) (w : ℚ) (env : HybridEnv) (e : String),
       search_hybrid q k w env = Except.error e →
       env.hybrid_exc = some e) := by
  constructor
  · intro q k r env st e heq
    unfold search_documents at heq
    by_cases hsafe : env.scan.is_safe = false
    · rw [if_pos hsafe] at heq
      simp at heq
    · rw [if_neg hsafe] at heq
      cases hcache : cacheGet st.response_cache q k with
      | some cached => simp [hcache] at heq
      | none =>
          rw [hcache] at heq
          dsimp only at heq
          split at heq
          · simp at heq
          · rename_i e0 hres
            have he0 : e0 = e := by
              simpa using heq
            have hop := call_failed_imp _ env.now (do_search env k r) e0 hres
            unfold do_search at hop
            cases hexc : env.search_exc with
            | none => rw [hexc] at hop; simp at hop
            | some x =>
                rw [hexc] at hop
                simp only [Except.error.injEq] at hop
                rw [hop, he0]
          · simp at heq
  · intro q k w env e heq
    unfold search_hybrid at heq
    by_cases hsafe : env.scan.is_safe = false
    · rw [if_pos hsafe] at heq
      simp at heq
    · rw [if_neg hsafe] at heq
      cases hexc : env.hybrid_exc with
      | none => rw [hexc] at heq; simp at heq
      | some x =>
          rw [hexc] at heq
          simp at heq
          rw [heq]

theorem C2_amended_raise_source_witness :
    (search_documents "q" 1 false c2Env {}).1 = Except.error "ConnectionError" ∧
    c2Env.search_exc = some "ConnectionError" :=
  ⟨rfl,
   C2_amended_raise_source.1 "q" 1 false c2Env {} "ConnectionError" rfl⟩

/-- **C3, failing evaluation**: the response cache is keyed by
`(query, top_k)` only (`response_cache.get(query, top_k)` at
`mcp_server.py:116`, `response_cache.set(query, top_k, results)` at
`mcp_server.py:198`) — the composite key including `use_reranking` is
computed at `mcp_server.py:115` but never used.  Concretely: a
`use_reranking=True` call on query `"q"`, `top_k=1` stores a reranked
response, and a subsequent `use_reranking=False` call with the same query
and `top_k` returns that cached reranked response (note its
`rerank_score` field), contradicting the claim that flag-distinct calls
never observe each other's cached responses. -/
theorem C3_cache_ignores_flag :
    (search_documents "q" 1 false c3Env
        ((search_documents "q" 1 true c3Env {}).2)).1
      = Except.ok [SearchEntry.reranked 1 "doc" "txt" "" 1 (9/10) 1] := by
  have hr1 : round3 1 = 1 := by
    norm_num [round3, roundEven]
  have hfirst : (search_documents "q" 1 true c3Env {}).2.response_cache
      = [(("q", 1), [SearchEntry.reranked 1 "doc" "txt" "" 1 (9/10) 1])] := by
    simp [search_documents, c3Env, c3Row, do_search, fetch_k, rowToResult,
          CircuitBreaker.call, CircuitBreaker.runOp, db_circuit, cacheGet, cacheSet,
          applyReranking, rerank, assignRanks, mkRerank, hr1]
  have hsecond : cacheGet (search_documents "q" 1 true c3Env {}).2.response_cache "q" 1
      = some [SearchEntry.reranked 1 "doc" "txt" "" 1 (9/10) 1] := by
    rw [hfirst]
    simp [cacheGet]
  have hsafe2 : ¬ (c3Env.scan.is_safe = false) := by decide
  generalize hS : (search_documents "q" 1 true c3Env {}).2 = S at hsecond ⊢
  unfold search_documents
  rw [if_neg hsafe2, hsecond]
